import Mathlib

/-!
Shallow embedding of the media authenticity scoring pipeline of
`backend/app/ml/models.py` (deepfake-detection-system).

Numeric conventions: Python floats are modelled as exact rationals `ℚ`.
External library primitives whose values the pipeline consumes but does not
compute (`np.log`, `np.sqrt`, `cv2.dct` basis, `np.pi`, CPython `set`
iteration order) are passed explicitly as parameters in `Params`; theorems
assume only the documented properties of those primitives (for example that
`np.sqrt` is nonnegative, or that the DCT basis rows beyond the DC row
annihilate constant signals).

Failure of an external call (file decode, classifier inference, face
detection, audio load, metrics recording) is modelled with `Option`/`Except`
oracles in the environment records; the `try/except` blocks of the source
become `match` on those oracles.
-/

namespace DFD

/-- Arithmetic mean as computed by `np.mean` (Lean's total division gives 0
for the empty list, where numpy would produce `nan`). -/
def meanQ (l : List ℚ) : ℚ := l.sum / l.length

/-- Population variance as computed by `np.var`. -/
def varQ (l : List ℚ) : ℚ := meanQ (l.map (fun x => (x - meanQ l) ^ 2))

/-- Clamp to the unit interval; used to state the spec's "clamped to [0,1]". -/
def clampQ (x : ℚ) : ℚ := max 0 (min x 1)

/-- External primitives the pipeline consumes: `np.log`, `np.sqrt`, the
`cv2.dct` basis matrix for each transform size, the float `np.pi / 2`, and
the CPython `set` iteration order used by `list(set(...))`. -/
structure Params where
  log : ℚ → ℚ
  sqrt : ℚ → ℚ
  dctM : ℕ → ℕ → ℕ → ℚ
  halfPi : ℚ
  setOrder : List String → List String

/-- `np.std`: square root of the population variance. -/
def stdQ (P : Params) (l : List ℚ) : ℚ := P.sqrt (varQ l)

/-- An 8-bit pixel value as a rational. -/
def pix (v : Fin 256) : ℚ := (v.val : ℚ)

/-- Row-major flattening of an `h × w` pixel grid, as numpy reductions see it. -/
def gridList (h w : ℕ) (f : ℕ → ℕ → Fin 256) : List ℚ :=
  ((List.range h).map (fun i => (List.range w).map (fun j => pix (f i j)))).flatten

/-- `cv2.borderInterpolate` with the default `BORDER_REFLECT_101` rule, for
the index offsets (±1) a 3×3 kernel produces; degenerate sizes clamp into
range as cv2 does for images smaller than the kernel. -/
def bidx (n : ℕ) (i : ℤ) : ℕ :=
  (if i < 0 then min (-i) ((n : ℤ) - 1)
   else if (n : ℤ) ≤ i then max (2 * ((n : ℤ) - 1) - i) 0
   else i).toNat

/-- `cv2.filter2D` with the 3×3 box kernel `np.ones((3,3))/9` on a `uint8`
image: neighbourhood mean, rounded and saturated back to `uint8` range. -/
def boxBlur (h w : ℕ) (f : ℕ → ℕ → Fin 256) (i j : ℕ) : ℚ :=
  max 0 (min 255 ((round ((∑ di ∈ Finset.range 3, ∑ dj ∈ Finset.range 3,
    pix (f (bidx h ((i : ℤ) + di - 1)) (bidx w ((j : ℤ) + dj - 1)))) / 9) : ℤ) : ℚ))

/-- The flattened `cv2.absdiff(gray, smoothed)` residual of `_analyze_noise_patterns`. -/
def noiseList (h w : ℕ) (f : ℕ → ℕ → Fin 256) : List ℚ :=
  ((List.range h).map (fun i => (List.range w).map
    (fun j => |pix (f i j) - boxBlur h w f i j|))).flatten

/-- Coefficient `(u, v)` of the two-dimensional `cv2.dct` of an `h × w` image,
expressed through the separable basis `dctM`. -/
def dctCoef (dctM : ℕ → ℕ → ℕ → ℚ) (h w : ℕ) (f : ℕ → ℕ → Fin 256) (u v : ℕ) : ℚ :=
  ∑ i ∈ Finset.range h, ∑ j ∈ Finset.range w, dctM h u i * pix (f i j) * dctM w v j

/-- `np.sum(np.abs(dct[8:, 8:]))` of `_detect_compression_artifacts`. -/
def dctHighFreq (dctM : ℕ → ℕ → ℕ → ℚ) (h w : ℕ) (f : ℕ → ℕ → Fin 256) : ℚ :=
  ∑ u ∈ Finset.Ico 8 h, ∑ v ∈ Finset.Ico 8 w, |dctCoef dctM h w f u v|

/-- `np.sum(np.abs(dct))` of `_detect_compression_artifacts`. -/
def dctTotalEnergy (dctM : ℕ → ℕ → ℕ → ℚ) (h w : ℕ) (f : ℕ → ℕ → Fin 256) : ℚ :=
  ∑ u ∈ Finset.range h, ∑ v ∈ Finset.range w, |dctCoef dctM h w f u v|

/-- `RealImageModel._detect_compression_artifacts`. -/
def detect_compression_artifacts (dctM : ℕ → ℕ → ℕ → ℚ) (h w : ℕ)
    (f : ℕ → ℕ → Fin 256) : ℚ :=
  min (dctHighFreq dctM h w f / (dctTotalEnergy dctM h w f + 1 / 1000000)) 1

/-- `RealImageModel._analyze_noise_patterns`. -/
def analyze_noise_patterns (h w : ℕ) (f : ℕ → ℕ → Fin 256) : ℚ :=
  min (varQ (noiseList h w f) / 1000) 1

/-- A decoded image as the fallback path consumes it: dimensions plus the
grayscale, saturation and value planes produced by `cv2.cvtColor`. -/
structure ImgData where
  h : ℕ
  w : ℕ
  gray : ℕ → ℕ → Fin 256
  sat : ℕ → ℕ → Fin 256
  value : ℕ → ℕ → Fin 256

/-- `RealImageModel._analyze_color_consistency`. -/
def analyze_color_consistency (P : Params) (img : ImgData) : ℚ :=
  let sat_std := stdQ P (gridList img.h img.w img.sat)
  let val_std := stdQ P (gridList img.h img.w img.value)
  min (1 / (1 + sat_std / 50 + val_std / 50)) 1

/-- A face region as `_check_face_artifacts` consumes it: the `cv2.Canny`
edge map of the face crop (a `uint8` grid). -/
structure FaceImg where
  h : ℕ
  w : ℕ
  edges : ℕ → ℕ → Fin 256

/-- `np.sum(edges) / (edges.shape[0] * edges.shape[1])`. -/
def edgeDensity (fc : FaceImg) : ℚ :=
  (∑ i ∈ Finset.range fc.h, ∑ j ∈ Finset.range fc.w, pix (fc.edges i j)) /
    ((fc.h : ℚ) * (fc.w : ℚ))

/-- `RealImageModel._check_face_artifacts`. -/
def check_face_artifacts (fc : FaceImg) : Bool :=
  decide (1000 < edgeDensity fc)

/-- `RealImageModel._extract_visual_cues`: the argument is the outcome of
`face_recognition.load_image_file` / `face_locations` (which the source
wraps in `try/except`). -/
def extract_visual_cues (faces : Except Unit (List FaceImg)) : List String :=
  match faces with
  | .error _ => ["Face analysis failed"]
  | .ok fl =>
    if 0 < fl.length then
      ("Detected " ++ toString fl.length ++ " face(s)") ::
        fl.enum.map (fun p =>
          if check_face_artifacts p.2 then
            "Face " ++ toString (p.1 + 1) ++ ": Potential artifacts detected"
          else
            "Face " ++ toString (p.1 + 1) ++ ": No obvious artifacts")
    else ["No faces detected"]

/-- `RealImageModel._calculate_fake_score_from_predictions` on the top-10
class probabilities (`np.log` and `np.std` via `Params`). -/
def calculate_fake_score_from_predictions (P : Params) (probs : List ℚ) : ℚ :=
  let entropy := -(probs.map (fun p => p * P.log (p + 1 / 10000000000))).sum
  let entropy_score := 1 - min (entropy / 2) 1
  let dominance_score := probs.headD (1 / 2)
  let uniformity_score := 1 - stdQ P probs
  min (max (entropy_score * (4 / 10) + dominance_score * (4 / 10)
    + uniformity_score * (2 / 10)) (1 / 10)) (9 / 10)

/-- The result dictionary shared by the three modality models; optional
fields carry the modality-specific extras. -/
structure ScoreDict where
  is_fake : Bool
  confidence : ℚ
  fake_probability : ℚ
  real_probability : ℚ
  visual_cues : List String
  model_used : String
  frames_analyzed : Option ℕ := none
  temporal_consistency : Option ℚ := none
  duration : Option ℚ := none
  sample_rate : Option ℕ := none

/-- What one stored image (or sampled video frame) yields to the image
analyses: the classifier inference outcome (top-10 probabilities, or an
exception), the face-detection outcome, and the `cv2.imread` outcome
(`None` on failure). -/
structure FrameData where
  hfProbs : Except Unit (List ℚ)
  faces : Except Unit (List FaceImg)
  decode : Option ImgData

/-- `RealImageModel._fallback_analysis`. -/
def fallback_analysis (P : Params) (fd : FrameData) : ScoreDict :=
  match fd.decode with
  | none =>
    { is_fake := false, confidence := 1 / 2, fake_probability := 1 / 2,
      real_probability := 1 / 2, visual_cues := ["Analysis failed"],
      model_used := "Error Fallback" }
  | some img =>
    let artifacts_score := detect_compression_artifacts P.dctM img.h img.w img.gray
    let noise_score := analyze_noise_patterns img.h img.w img.gray
    let color_consistency := analyze_color_consistency P img
    let fake_score := (artifacts_score + noise_score + (1 - color_consistency)) / 3
    let cues0 :=
      (if 6 / 10 < artifacts_score then ["Compression artifacts detected"] else []) ++
      (if 6 / 10 < noise_score then ["Inconsistent noise patterns"] else []) ++
      (if color_consistency < 4 / 10 then ["Color inconsistencies detected"] else [])
    { is_fake := decide (1 / 2 < fake_score),
      confidence := min (fake_score * (8 / 10) + 2 / 10) (95 / 100),
      fake_probability := fake_score,
      real_probability := 1 - fake_score,
      visual_cues := if cues0 = [] then ["No obvious artifacts detected"] else cues0,
      model_used := "Traditional CV Analysis" }

/-- `RealImageModel._huggingface_analysis` (its `except` branch falls back
to `_fallback_analysis`). -/
def huggingface_analysis (P : Params) (fd : FrameData) : ScoreDict :=
  match fd.hfProbs with
  | .error _ => fallback_analysis P fd
  | .ok probs =>
    let fake_score := calculate_fake_score_from_predictions P probs
    { is_fake := decide (1 / 2 < fake_score),
      confidence := min (fake_score * (7 / 10) + 3 / 10) (9 / 10),
      fake_probability := fake_score,
      real_probability := 1 - fake_score,
      visual_cues := extract_visual_cues fd.faces,
      model_used := "Hugging Face ResNet-50 + CV Analysis" }

/-- Environment of one `RealImageModel.analyze_image` call: whether the
optional pretrained classifier capability is loaded, and the frame`s data. -/
structure ImageEnv where
  classifier : Bool
  frame : FrameData

/-- `RealImageModel.analyze_image` (the surrounding `try/except` is dead:
both callees are total). -/
def RealImageModel.analyze_image (P : Params) (env : ImageEnv) : ScoreDict :=
  if env.classifier then huggingface_analysis P env.frame
  else fallback_analysis P env.frame

/-- Environment of one `RealVideoModel.analyze_video` call: whether
`cv2.VideoCapture` opened, the reported FPS, the decodable frames of the
source in decode order, and the classifier capability flag of the wrapped
image model. -/
structure VideoEnv where
  opened : Bool
  fps : ℚ
  src : List FrameData
  classifier : Bool

/-- The frame-reading loop of `RealVideoModel._extract_frames`: keep every
`interval`-th decodable frame, stop as soon as 30 are collected. -/
def extract_loop (interval : ℕ) : List FrameData → ℕ → List FrameData → List FrameData
  | [], _, acc => acc.reverse
  | f :: rest, count, acc =>
    let acc' := if count % interval = 0 then f :: acc else acc
    if 30 ≤ acc'.length then acc'.reverse
    else extract_loop interval rest (count + 1) acc'

/-- `RealVideoModel._extract_frames` at the default 1 fps target.
`int(fps / frame_rate)` truncates; a zero interval raises
`ZeroDivisionError` at `frame_count % frame_interval`, which the
surrounding `except` turns into the empty list. -/
def extract_frames (env : VideoEnv) : List FrameData :=
  if env.opened = false then []
  else
    let frame_interval := (⌊env.fps⌋).toNat
    if frame_interval = 0 then []
    else extract_loop frame_interval env.src 0 []

/-- `RealVideoModel._analyze_temporal_consistency`. -/
def analyze_temporal_consistency (fake_probs : List ℚ) : ℚ :=
  if fake_probs.length < 2 then 1
  else min (1 / (1 + varQ fake_probs * 10)) 1

/-- The per-frame scoring step of `RealVideoModel.analyze_video`: the model
attribute selects `_huggingface_analysis`, otherwise `_fallback_analysis`. -/
def frame_analyze (P : Params) (classifier : Bool) (fd : FrameData) : ScoreDict :=
  if classifier then huggingface_analysis P fd else fallback_analysis P fd

/-- The cue aggregation `list(set(all_cues))[:5]` of
`RealVideoModel.analyze_video`; `setOrder` is the CPython set iteration
order. -/
def aggregate_cues (setOrder : List String → List String)
    (frame_cues : List (List String)) : List String :=
  (setOrder frame_cues.flatten).take 5

/-- `RealVideoModel._fallback_video_analysis`. -/
def fallback_video_analysis : ScoreDict :=
  { is_fake := false, confidence := 1 / 2, fake_probability := 1 / 2,
    real_probability := 1 / 2, visual_cues := ["Video analysis failed"],
    model_used := "Fallback Analysis", frames_analyzed := some 0,
    temporal_consistency := some (1 / 2) }

/-- `RealVideoModel.analyze_video`. -/
def RealVideoModel.analyze_video (P : Params) (env : VideoEnv) : ScoreDict :=
  let frames := extract_frames env
  if frames.isEmpty then fallback_video_analysis
  else
    let frame_results := frames.map (frame_analyze P env.classifier)
    let fake_probs := frame_results.map (fun r => r.fake_probability)
    let confidences := frame_results.map (fun r => r.confidence)
    let temporal_score := analyze_temporal_consistency fake_probs
    let avg_fake_prob := meanQ fake_probs
    let avg_confidence := meanQ confidences
    { is_fake := decide (1 / 2 < avg_fake_prob),
      confidence := avg_confidence * (7 / 10 + 3 / 10 * temporal_score),
      fake_probability := avg_fake_prob,
      real_probability := 1 - avg_fake_prob,
      visual_cues := aggregate_cues P.setOrder
        (frame_results.map (fun r => r.visual_cues)),
      model_used := "Temporal CV Analysis",
      frames_analyzed := some frames.length,
      temporal_consistency := some temporal_score }

/-- Decoded audio as `RealAudioModel.analyze_audio` consumes it: the sample
count and rate from `librosa.load`, the 13-band MFCC matrix (one list per
band, over time), the spectral centroid and rolloff series, and the
unwrapped analytic-signal phase differences from
`scipy.signal.hilbert` / `np.angle` / `np.unwrap` / `np.diff`. -/
structure AudioData where
  nsamples : ℕ
  sr : ℕ
  mfcc : List (List ℚ)
  centroid : List ℚ
  rolloff : List ℚ
  phase_diff : List ℚ

/-- Environment of one `RealAudioModel.analyze_audio` call: the fallible
decode-and-extract portion of its `try` block. -/
structure AudioEnv where
  load : Except String AudioData

/-- `RealAudioModel._detect_audio_artifacts`: mean over bands of the
per-band time variance, divided by 1000 and capped at 1. -/
def detect_audio_artifacts (a : AudioData) : ℚ :=
  min (meanQ (a.mfcc.map varQ) / 1000) 1

/-- `RealAudioModel._analyze_spectral_features`. -/
def analyze_spectral_features (P : Params) (a : AudioData) : ℚ :=
  min ((stdQ P a.centroid + stdQ P a.rolloff) / 1000) 1

/-- `RealAudioModel._analyze_phase_consistency`: fraction of phase
differences exceeding `np.pi / 2` in magnitude, scaled by 10 and capped. -/
def analyze_phase_consistency (P : Params) (a : AudioData) : ℚ :=
  let discontinuities := a.phase_diff.countP (fun d => decide (P.halfPi < |d|))
  min ((discontinuities : ℚ) / (a.phase_diff.length : ℚ) * 10) 1

/-- `RealAudioModel._fallback_audio_analysis`. -/
def fallback_audio_analysis : ScoreDict :=
  { is_fake := false, confidence := 1 / 2, fake_probability := 1 / 2,
    real_probability := 1 / 2, visual_cues := ["Audio analysis failed"],
    model_used := "Fallback Analysis", duration := some 0,
    sample_rate := some 0 }

/-- `RealAudioModel.analyze_audio`. -/
def RealAudioModel.analyze_audio (P : Params) (env : AudioEnv) : ScoreDict :=
  match env.load with
  | .error _ => fallback_audio_analysis
  | .ok a =>
    let artifacts_score := detect_audio_artifacts a
    let spectral_score := analyze_spectral_features P a
    let phase_score := analyze_phase_consistency P a
    let fake_score := (artifacts_score + spectral_score + phase_score) / 3
    let cues0 :=
      (if 6 / 10 < artifacts_score then ["Audio compression artifacts detected"] else []) ++
      (if 6 / 10 < spectral_score then ["Spectral inconsistencies found"] else []) ++
      (if 6 / 10 < phase_score then ["Phase inconsistencies detected"] else [])
    { is_fake := decide (1 / 2 < fake_score),
      confidence := min (fake_score * (8 / 10) + 2 / 10) (95 / 100),
      fake_probability := fake_score,
      real_probability := 1 - fake_score,
      visual_cues := if cues0 = [] then ["No obvious audio artifacts detected"] else cues0,
      model_used := "Audio Spectral Analysis",
      duration := some ((a.nsamples : ℚ) / (a.sr : ℚ)),
      sample_rate := some a.sr }

/-- The public result record built by the `ModelManager` boundary; metadata
is modelled by the fields the pipeline writes into it. -/
structure AnalysisResult where
  file_type : String
  is_fake : Bool
  confidence : ℚ
  model_used : String
  md_error : Option String
  md_fake_probability : Option ℚ
  md_real_probability : Option ℚ
  md_visual_cues : Option (List String)

/-- The error result every `ModelManager.analyze_*` `except` branch builds. -/
def errorResult (file_type msg : String) : AnalysisResult :=
  { file_type := file_type, is_fake := false, confidence := 0,
    model_used := "Error", md_error := some msg,
    md_fake_probability := none, md_real_probability := none,
    md_visual_cues := none }

/-- Boundary-level environment of one `ModelManager.analyze_*` call: whether
`os.path.exists` holds, and the outcome of the remaining fallible plumbing
inside the `try` block (metrics recording and friends), whose exception
message the `except` branch preserves. -/
structure MMEnv where
  fileExists : Bool
  plumbing : Except String Unit

/-- The successful-path result assembly shared by the three
`ModelManager.analyze_*` operations. -/
def successResult (file_type : String) (r : ScoreDict) : AnalysisResult :=
  { file_type := file_type, is_fake := r.is_fake, confidence := r.confidence,
    model_used := r.model_used, md_error := none,
    md_fake_probability := some r.fake_probability,
    md_real_probability := some r.real_probability,
    md_visual_cues := some r.visual_cues }

/-- `ModelManager.analyze_image`. -/
def ModelManager.analyze_image (P : Params) (path : String) (m : MMEnv)
    (env : ImageEnv) : AnalysisResult :=
  if m.fileExists = false then
    errorResult "image" ("Image file not found: " ++ path)
  else
    let r := RealImageModel.analyze_image P env
    match m.plumbing with
    | .error e => errorResult "image" e
    | .ok _ => successResult "image" r

/-- `ModelManager.analyze_video`. -/
def ModelManager.analyze_video (P : Params) (path : String) (m : MMEnv)
    (env : VideoEnv) : AnalysisResult :=
  if m.fileExists = false then
    errorResult "video" ("Video file not found: " ++ path)
  else
    let r := RealVideoModel.analyze_video P env
    match m.plumbing with
    | .error e => errorResult "video" e
    | .ok _ => successResult "video" r

/-- `ModelManager.analyze_audio`. -/
def ModelManager.analyze_audio (P : Params) (path : String) (m : MMEnv)
    (env : AudioEnv) : AnalysisResult :=
  if m.fileExists = false then
    errorResult "audio" ("Audio file not found: " ++ path)
  else
    let r := RealAudioModel.analyze_audio P env
    match m.plumbing with
    | .error e => errorResult "audio" e
    | .ok _ => successResult "audio" r

/-- The outcome invariants of the spec's §8 for a modality result record. -/
def InvD (d : ScoreDict) : Prop :=
  d.fake_probability + d.real_probability = 1 ∧
  0 ≤ d.fake_probability ∧ d.fake_probability ≤ 1 ∧
  0 ≤ d.real_probability ∧ d.real_probability ≤ 1 ∧
  0 ≤ d.confidence ∧ d.confidence ≤ 1 ∧
  d.is_fake = decide (1 / 2 < d.fake_probability)

/-- Structural well-formedness of a public `AnalysisResult`: confidence in
the unit interval, and a coherent probability pair whenever one is present. -/
def WellFormed (r : AnalysisResult) : Prop :=
  0 ≤ r.confidence ∧ r.confidence ≤ 1 ∧
  ∀ p q, r.md_fake_probability = some p → r.md_real_probability = some q →
    p + q = 1 ∧ 0 ≤ p ∧ p ≤ 1 ∧ 0 ≤ q ∧ q ≤ 1

/-- The contract CPython set iteration obeys: `list(set(xs))` is a
duplicate-free enumeration of exactly the members of `xs`. -/
def SetIter (o : List String → List String) : Prop :=
  ∀ xs, (o xs).Nodup ∧ ∀ a, a ∈ o xs ↔ a ∈ xs

/-- The property of the `cv2.dct` basis the pipeline relies on: every basis
row other than the DC row sums to zero (annihilates constants). -/
def DctRows0 (dctM : ℕ → ℕ → ℕ → ℚ) : Prop :=
  ∀ n u, 1 ≤ u → ∑ i ∈ Finset.range n, dctM n u i = 0

/-- A concrete instantiation of the external primitives, used to evaluate
the pipeline on concrete inputs. -/
def P0 : Params :=
  { log := fun _ => 0, sqrt := fun _ => 0, dctM := fun _ _ _ => 0,
    halfPi := 157 / 100, setOrder := fun xs => xs.dedup }

theorem meanQ_nonneg {l : List ℚ} (h : ∀ x ∈ l, 0 ≤ x) : 0 ≤ meanQ l :=
  div_nonneg (List.sum_nonneg h) (Nat.cast_nonneg _)

theorem meanQ_le_one {l : List ℚ} (h : ∀ x ∈ l, x ≤ 1) : meanQ l ≤ 1 := by
  rcases l with _ | ⟨a, l⟩
  · simp [meanQ]
  · have hlen : (0 : ℚ) < ((a :: l).length : ℚ) := by
      exact_mod_cast Nat.succ_pos l.length
    rw [meanQ, div_le_one hlen]
    calc (a :: l).sum ≤ (a :: l).length • (1 : ℚ) := List.sum_le_card_nsmul _ _ h
      _ = ((a :: l).length : ℚ) := by simp

theorem varQ_nonneg (l : List ℚ) : 0 ≤ varQ l := by
  refine meanQ_nonneg ?_
  intro x hx
  rcases List.mem_map.1 hx with ⟨y, _, rfl⟩
  positivity

theorem varQ_of_const {l : List ℚ} {c : ℚ} (h : ∀ x ∈ l, x = c) : varQ l = 0 := by
  rcases l with _ | ⟨a, l⟩
  · simp [varQ, meanQ]
  · have hmean : meanQ (a :: l) = c := by
      have hsum : (a :: l).sum = (a :: l).length • c := List.sum_eq_card_nsmul _ _ h
      have hlen : ((a :: l).length : ℚ) ≠ 0 :=
        Nat.cast_ne_zero.mpr (Nat.succ_ne_zero _)
      rw [meanQ, hsum, nsmul_eq_mul, mul_comm, mul_div_assoc, div_self hlen, mul_one]
    rw [varQ, hmean]
    have : ((a :: l).map fun x => (x - c) ^ 2).sum = 0 := by
      refine List.sum_eq_zero ?_
      intro x hx
      rcases List.mem_map.1 hx with ⟨y, hy, rfl⟩
      rw [h y hy, sub_self]
      ring
    rw [meanQ, this, zero_div]

theorem unit_of_min {x : ℚ} (hx : 0 ≤ x) : 0 ≤ min x 1 ∧ min x 1 ≤ 1 :=
  ⟨le_min hx zero_le_one, min_le_right _ _⟩

theorem meanQ_mem_unit {l : List ℚ} (h : ∀ x ∈ l, 0 ≤ x ∧ x ≤ 1) :
    0 ≤ meanQ l ∧ meanQ l ≤ 1 :=
  ⟨meanQ_nonneg fun x hx => (h x hx).1, meanQ_le_one fun x hx => (h x hx).2⟩

theorem detect_compression_artifacts_mem (dctM : ℕ → ℕ → ℕ → ℚ) (h w : ℕ)
    (f : ℕ → ℕ → Fin 256) :
    0 ≤ detect_compression_artifacts dctM h w f ∧
      detect_compression_artifacts dctM h w f ≤ 1 := by
  have hhf : 0 ≤ dctHighFreq dctM h w f :=
    Finset.sum_nonneg fun u _ => Finset.sum_nonneg fun v _ => abs_nonneg _
  have hte : 0 ≤ dctTotalEnergy dctM h w f :=
    Finset.sum_nonneg fun u _ => Finset.sum_nonneg fun v _ => abs_nonneg _
  have hden : (0 : ℚ) < dctTotalEnergy dctM h w f + 1 / 1000000 := by positivity
  exact unit_of_min (div_nonneg hhf hden.le)

theorem analyze_noise_patterns_mem (h w : ℕ) (f : ℕ → ℕ → Fin 256) :
    0 ≤ analyze_noise_patterns h w f ∧ analyze_noise_patterns h w f ≤ 1 :=
  unit_of_min (div_nonneg (varQ_nonneg _) (by norm_num))

theorem analyze_color_consistency_mem (P : Params) (hs : ∀ x, 0 ≤ P.sqrt x)
    (img : ImgData) :
    0 ≤ analyze_color_consistency P img ∧ analyze_color_consistency P img ≤ 1 := by
  have h1 : (0 : ℚ) ≤ stdQ P (gridList img.h img.w img.sat) := hs _
  have h2 : (0 : ℚ) ≤ stdQ P (gridList img.h img.w img.value) := hs _
  refine unit_of_min (le_of_lt (div_pos one_pos ?_))
  positivity

theorem invD_build {d : ScoreDict} (hreal : d.real_probability = 1 - d.fake_probability)
    (hf0 : 0 ≤ d.fake_probability) (hf1 : d.fake_probability ≤ 1)
    (hc0 : 0 ≤ d.confidence) (hc1 : d.confidence ≤ 1)
    (hif : d.is_fake = decide (1 / 2 < d.fake_probability)) : InvD d := by
  refine ⟨by rw [hreal]; ring, hf0, hf1, ?_, ?_, hc0, hc1, hif⟩
  · rw [hreal]; linarith
  · rw [hreal]; linarith

theorem fallback_analysis_inv (P : Params) (hs : ∀ x, 0 ≤ P.sqrt x)
    (fd : FrameData) : InvD (fallback_analysis P fd) := by
  rcases hd : fd.decode with _ | img
  · refine invD_build ?_ ?_ ?_ ?_ ?_ ?_ <;>
      simp [fallback_analysis, hd] <;> norm_num
  · have ha := detect_compression_artifacts_mem P.dctM img.h img.w img.gray
    have hn := analyze_noise_patterns_mem img.h img.w img.gray
    have hc := analyze_color_consistency_mem P hs img
    simp only [fallback_analysis, hd]
    refine invD_build rfl ?_ ?_ ?_ ?_ rfl
    · dsimp only
      linarith [ha.1, hn.1, hc.2]
    · dsimp only
      linarith [ha.2, hn.2, hc.1]
    · dsimp only
      exact le_min (by linarith [ha.1, hn.1, hc.2]) (by norm_num)
    · dsimp only
      exact le_trans (min_le_right _ _) (by norm_num)

theorem huggingface_analysis_inv (P : Params) (hs : ∀ x, 0 ≤ P.sqrt x)
    (fd : FrameData) : InvD (huggingface_analysis P fd) := by
  rcases hp : fd.hfProbs with _ | probs
  · have := fallback_analysis_inv P hs fd
    simpa [huggingface_analysis, hp] using this
  · have hf0 : (1 : ℚ) / 10 ≤ calculate_fake_score_from_predictions P probs := by
      unfold calculate_fake_score_from_predictions
      exact le_min (le_max_right _ _) (by norm_num)
    have hf1 : calculate_fake_score_from_predictions P probs ≤ 9 / 10 := by
      unfold calculate_fake_score_from_predictions
      exact min_le_right _ _
    simp only [huggingface_analysis, hp]
    refine invD_build rfl ?_ ?_ ?_ ?_ rfl
    · dsimp only
      linarith
    · dsimp only
      linarith
    · dsimp only
      exact le_min (by linarith) (by norm_num)
    · dsimp only
      exact le_trans (min_le_right _ _) (by norm_num)

theorem RealImageModel.analyze_image_inv (P : Params) (hs : ∀ x, 0 ≤ P.sqrt x)
    (env : ImageEnv) : InvD (RealImageModel.analyze_image P env) := by
  unfold RealImageModel.analyze_image
  rcases env.classifier
  · simpa using fallback_analysis_inv P hs env.frame
  · simpa using huggingface_analysis_inv P hs env.frame

theorem frame_analyze_inv (P : Params) (hs : ∀ x, 0 ≤ P.sqrt x)
    (classifier : Bool) (fd : FrameData) : InvD (frame_analyze P classifier fd) := by
  unfold frame_analyze
  rcases classifier
  · simpa using fallback_analysis_inv P hs fd
  · simpa using huggingface_analysis_inv P hs fd

theorem analyze_temporal_consistency_mem (l : List ℚ) :
    0 ≤ analyze_temporal_consistency l ∧ analyze_temporal_consistency l ≤ 1 := by
  unfold analyze_temporal_consistency
  rcases lt_or_le l.length 2 with h | h
  · simp [h]
  · rw [if_neg (not_lt.mpr h)]
    have hv := varQ_nonneg l
    refine unit_of_min (le_of_lt (div_pos one_pos (by linarith)))

theorem RealVideoModel.analyze_video_inv (P : Params) (hs : ∀ x, 0 ≤ P.sqrt x)
    (env : VideoEnv) : InvD (RealVideoModel.analyze_video P env) := by
  unfold RealVideoModel.analyze_video
  rcases he : (extract_frames env).isEmpty
  · simp only [he, if_false, Bool.false_eq_true]
    have hfp : 0 ≤ meanQ ((extract_frames env).map
        (frame_analyze P env.classifier) |>.map fun r => r.fake_probability) ∧
        meanQ ((extract_frames env).map
          (frame_analyze P env.classifier) |>.map fun r => r.fake_probability) ≤ 1 := by
      refine meanQ_mem_unit ?_
      intro x hx
      rcases List.mem_map.1 hx with ⟨r, hr, rfl⟩
      rcases List.mem_map.1 hr with ⟨fd, _, rfl⟩
      have := frame_analyze_inv P hs env.classifier fd
      exact ⟨this.2.1, this.2.2.1⟩
    have hcf : 0 ≤ meanQ ((extract_frames env).map
        (frame_analyze P env.classifier) |>.map fun r => r.confidence) ∧
        meanQ ((extract_frames env).map
          (frame_analyze P env.classifier) |>.map fun r => r.confidence) ≤ 1 := by
      refine meanQ_mem_unit ?_
      intro x hx
      rcases List.mem_map.1 hx with ⟨r, hr, rfl⟩
      rcases List.mem_map.1 hr with ⟨fd, _, rfl⟩
      have := frame_analyze_inv P hs env.classifier fd
      exact ⟨this.2.2.2.2.2.1, this.2.2.2.2.2.2.1⟩
    have hts := analyze_temporal_consistency_mem ((extract_frames env).map
      (frame_analyze P env.classifier) |>.map fun r => r.fake_probability)
    refine invD_build rfl hfp.1 hfp.2 ?_ ?_ rfl
    · dsimp only
      nlinarith [hcf.1, hcf.2, hts.1, hts.2]
    · dsimp only
      nlinarith [hcf.1, hcf.2, hts.1, hts.2]
  · simp only [he, if_true]
    refine invD_build ?_ ?_ ?_ ?_ ?_ ?_ <;> simp [fallback_video_analysis] <;> norm_num

theorem RealAudioModel.analyze_audio_inv (P : Params) (hs : ∀ x, 0 ≤ P.sqrt x)
    (env : AudioEnv) : InvD (RealAudioModel.analyze_audio P env) := by
  unfold RealAudioModel.analyze_audio
  rcases hl : env.load with e | a
  · refine invD_build ?_ ?_ ?_ ?_ ?_ ?_ <;>
      simp [fallback_audio_analysis] <;> norm_num
  · have ha : 0 ≤ detect_audio_artifacts a ∧ detect_audio_artifacts a ≤ 1 := by
      refine unit_of_min (div_nonneg (meanQ_nonneg ?_) (by norm_num))
      intro x hx
      rcases List.mem_map.1 hx with ⟨row, _, rfl⟩
      exact varQ_nonneg row
    have hsp : 0 ≤ analyze_spectral_features P a ∧ analyze_spectral_features P a ≤ 1 := by
      refine unit_of_min (div_nonneg ?_ (by norm_num))
      have := hs (varQ a.centroid)
      have := hs (varQ a.rolloff)
      unfold stdQ
      linarith
    have hph : 0 ≤ analyze_phase_consistency P a ∧ analyze_phase_consistency P a ≤ 1 := by
      refine unit_of_min (mul_nonneg (div_nonneg (Nat.cast_nonneg _) (Nat.cast_nonneg _))
        (by norm_num))
    refine invD_build rfl ?_ ?_ ?_ ?_ rfl
    · dsimp only
      linarith [ha.1, hsp.1, hph.1]
    · dsimp only
      linarith [ha.2, hsp.2, hph.2]
    · dsimp only
      exact le_min (by linarith [ha.1, hsp.1, hph.1]) (by norm_num)
    · dsimp only
      exact le_trans (min_le_right _ _) (by norm_num)

theorem extract_loop_cons (interval : ℕ) (f : FrameData) (rest : List FrameData)
    (count : ℕ) (acc : List FrameData) :
    extract_loop interval (f :: rest) count acc =
      if 30 ≤ (if count % interval = 0 then f :: acc else acc).length then
        (if count % interval = 0 then f :: acc else acc).reverse
      else extract_loop interval rest (count + 1)
        (if count % interval = 0 then f :: acc else acc) := rfl

theorem extract_loop_length_le (interval : ℕ) (src : List FrameData) :
    ∀ count acc, acc.length < 30 →
      (extract_loop interval src count acc).length ≤ 30 := by
  induction src with
  | nil =>
    intro count acc h
    simpa [extract_loop] using le_of_lt h
  | cons f rest ih =>
    intro count acc h
    rw [extract_loop_cons]
    have hlen : (if count % interval = 0 then f :: acc else acc).length ≤
        acc.length + 1 := by
      split <;> simp
    by_cases h30 : 30 ≤ (if count % interval = 0 then f :: acc else acc).length
    · rw [if_pos h30]
      rw [List.length_reverse]
      omega
    · rw [if_neg h30]
      exact ih _ _ (by omega)

/-- A concrete pixel grid value used for evaluating the pipeline. -/
def imgData0 : ImgData :=
  { h := 1, w := 1, gray := fun _ _ => 100, sat := fun _ _ => 100,
    value := fun _ _ => 100 }

/-- A concrete face crop (its Canny edge map) for evaluation. -/
def face0 : FaceImg := { h := 1, w := 1, edges := fun _ _ => 255 }

/-- A concrete frame environment for evaluation. -/
def frame0 : FrameData :=
  { hfProbs := Except.ok [1 / 2], faces := Except.ok [], decode := some imgData0 }

/-- A concrete image-analysis environment on the classifier path. -/
def ienv0 : ImageEnv := { classifier := true, frame := frame0 }

/-- A concrete video-analysis environment with one decodable frame. -/
def venv0 : VideoEnv :=
  { opened := true, fps := 1, src := [frame0], classifier := false }

/-- Concrete decoded-audio data for evaluation. -/
def audioData0 : AudioData :=
  { nsamples := 16000, sr := 16000, mfcc := [[1, 2]],
    centroid := [1], rolloff := [1], phase_diff := [1] }

/-- A concrete audio-analysis environment with a successful load. -/
def aenv0 : AudioEnv := { load := Except.ok audioData0 }

/-- A concrete video environment whose capture does not open. -/
def venvE : VideoEnv :=
  { opened := false, fps := 1, src := [], classifier := false }

/-- A concrete audio environment whose load raises. -/
def aenvE : AudioEnv := { load := Except.error "decode failed" }

theorem edgeDensity_le_255 (fc : FaceImg) (hw : 0 < fc.h * fc.w) :
    edgeDensity fc ≤ 255 := by
  have hsum : (∑ i ∈ Finset.range fc.h, ∑ j ∈ Finset.range fc.w, pix (fc.edges i j))
      ≤ (fc.h : ℚ) * (fc.w : ℚ) * 255 := by
    calc (∑ i ∈ Finset.range fc.h, ∑ j ∈ Finset.range fc.w, pix (fc.edges i j))
        ≤ ∑ _i ∈ Finset.range fc.h, (fc.w : ℚ) * 255 := by
          refine Finset.sum_le_sum (fun i _ => ?_)
          calc (∑ j ∈ Finset.range fc.w, pix (fc.edges i j))
              ≤ (Finset.range fc.w).card • (255 : ℚ) := by
                refine Finset.sum_le_card_nsmul _ _ _ (fun j _ => ?_)
                have := (fc.edges i j).isLt
                unfold pix
                exact_mod_cast Nat.lt_succ_iff.mp this
            _ = (fc.w : ℚ) * 255 := by
                simp [nsmul_eq_mul]
      _ = (fc.h : ℚ) * ((fc.w : ℚ) * 255) := by
          simp [Finset.sum_const, Finset.card_range, nsmul_eq_mul]
      _ = (fc.h : ℚ) * (fc.w : ℚ) * 255 := by ring
  have hpos : (0 : ℚ) < (fc.h : ℚ) * (fc.w : ℚ) := by
    have : (0 : ℚ) < ((fc.h * fc.w : ℕ) : ℚ) := by exact_mod_cast hw
    simpa [Nat.cast_mul] using this
  rw [edgeDensity, div_le_iff₀ hpos]
  linarith

theorem check_face_artifacts_false (fc : FaceImg) :
    check_face_artifacts fc = false := by
  rw [check_face_artifacts, decide_eq_false_iff_not]
  intro habs
  rcases Nat.eq_zero_or_pos (fc.h * fc.w) with hz | hp
  · rcases Nat.mul_eq_zero.1 hz with h0 | h0 <;>
      rw [edgeDensity] at habs <;> simp [h0] at habs <;> linarith
  · linarith [edgeDensity_le_255 fc hp]

/-- C10: the face-artifact check is vacuous — the edge-density measure (sum
of Canny edge values, each at most 255, over the pixel count) is bounded by
255 yet compared against 1000, so `_check_face_artifacts` returns `False`
for every face region and the per-face "Potential artifacts detected" cue
is never emitted. -/
theorem C10_face_check_vacuous (fc : FaceImg) :
    (0 < fc.h * fc.w → edgeDensity fc ≤ 255) ∧ check_face_artifacts fc = false :=
  ⟨edgeDensity_le_255 fc, check_face_artifacts_false fc⟩

/-- Witness for C10 at a concrete 1×1 all-255 edge map. -/
theorem C10_face_check_vacuous_witness :
    edgeDensity face0 ≤ 255 ∧ check_face_artifacts face0 = false :=
  ⟨(C10_face_check_vacuous face0).1 (by decide), (C10_face_check_vacuous face0).2⟩

/-- C8: frame extraction returns at most 30 frames for every video source,
however many decodable frames it has. -/
theorem C8_frame_cap (env : VideoEnv) : (extract_frames env).length ≤ 30 := by
  rw [extract_frames]
  by_cases hop : env.opened = false
  · rw [if_pos hop]
    simp
  · rw [if_neg hop]
    show (if (⌊env.fps⌋).toNat = 0 then []
      else extract_loop (⌊env.fps⌋).toNat env.src 0 []).length ≤ 30
    by_cases hz : (⌊env.fps⌋).toNat = 0
    · rw [if_pos hz]
      simp
    · rw [if_neg hz]
      exact extract_loop_length_le _ _ _ _ (by norm_num)

/-- C7: the temporal-consistency score is `1 / (1 + 10·var)` clamped to
[0,1] for at least two frames, and exactly 1 for fewer than two. -/
theorem C7_temporal_consistency (l : List ℚ) :
    (2 ≤ l.length →
      analyze_temporal_consistency l = clampQ (1 / (1 + 10 * varQ l))) ∧
    (l.length < 2 → analyze_temporal_consistency l = 1) := by
  constructor
  · intro h2
    have hv := varQ_nonneg l
    have hpos : (0 : ℚ) < 1 + varQ l * 10 := by linarith
    have hnn : (0 : ℚ) ≤ 1 / (1 + varQ l * 10) := le_of_lt (div_pos one_pos hpos)
    rw [analyze_temporal_consistency, if_neg (not_lt.mpr h2), clampQ,
      mul_comm (10 : ℚ) (varQ l)]
    exact (max_eq_right (le_min hnn zero_le_one)).symm
  · intro h2
    rw [analyze_temporal_consistency, if_pos h2]

/-- Witness for C7: a two-frame list takes the clamped-formula branch and a
one-frame list yields exactly 1. -/
theorem C7_temporal_consistency_witness :
    analyze_temporal_consistency [0, 1] = clampQ (1 / (1 + 10 * varQ [0, 1])) ∧
    analyze_temporal_consistency [(3 : ℚ) / 4] = 1 :=
  ⟨(C7_temporal_consistency [0, 1]).1 (by decide),
   (C7_temporal_consistency [(3 : ℚ) / 4]).2 (by decide)⟩

/-- C3: an empty frame sequence makes `analyze_video` return the fixed
neutral outcome (probability 0.5, confidence 0.5, cue "Video analysis
failed"), and an audio decode/extraction failure makes `analyze_audio`
return the analogous neutral outcome with cue "Audio analysis failed". -/
theorem C3_neutral_outcomes (P : Params) (venv : VideoEnv) (aenv : AudioEnv)
    (e : String) :
    (extract_frames venv = [] →
      RealVideoModel.analyze_video P venv = fallback_video_analysis ∧
      (RealVideoModel.analyze_video P venv).fake_probability = 1 / 2 ∧
      (RealVideoModel.analyze_video P venv).confidence = 1 / 2 ∧
      (RealVideoModel.analyze_video P venv).visual_cues = ["Video analysis failed"]) ∧
    (aenv.load = Except.error e →
      RealAudioModel.analyze_audio P aenv = fallback_audio_analysis ∧
      (RealAudioModel.analyze_audio P aenv).fake_probability = 1 / 2 ∧
      (RealAudioModel.analyze_audio P aenv).confidence = 1 / 2 ∧
      (RealAudioModel.analyze_audio P aenv).visual_cues = ["Audio analysis failed"]) := by
  constructor
  · intro hempty
    have hv : RealVideoModel.analyze_video P venv = fallback_video_analysis := by
      rw [RealVideoModel.analyze_video]
      simp [hempty]
    exact ⟨hv, by rw [hv]; rfl, by rw [hv]; rfl, by rw [hv]; rfl⟩
  · intro hload
    have ha : RealAudioModel.analyze_audio P aenv = fallback_audio_analysis := by
      rw [RealAudioModel.analyze_audio, hload]
    exact ⟨ha, by rw [ha]; rfl, by rw [ha]; rfl, by rw [ha]; rfl⟩

/-- Witness for C3 at a video whose capture fails to open and an audio load
that raises. -/
theorem C3_neutral_outcomes_witness :
    RealVideoModel.analyze_video P0 venvE = fallback_video_analysis ∧
    RealAudioModel.analyze_audio P0 aenvE = fallback_audio_analysis :=
  ⟨((C3_neutral_outcomes P0 venvE aenvE "decode failed").1 rfl).1,
   ((C3_neutral_outcomes P0 venvE aenvE "decode failed").2 rfl).1⟩

/-- C2: every outcome of the three modality analyses has an exact
probability pair summing to 1 with both components in [0,1], confidence in
[0,1], and the fake verdict exactly when the fake probability exceeds 0.5. -/
theorem C2_outcome_invariants (P : Params) (hs : ∀ x, 0 ≤ P.sqrt x)
    (ienv : ImageEnv) (venv : VideoEnv) (aenv : AudioEnv) :
    InvD (RealImageModel.analyze_image P ienv) ∧
    InvD (RealVideoModel.analyze_video P venv) ∧
    InvD (RealAudioModel.analyze_audio P aenv) :=
  ⟨RealImageModel.analyze_image_inv P hs ienv,
   RealVideoModel.analyze_video_inv P hs venv,
   RealAudioModel.analyze_audio_inv P hs aenv⟩

/-- Witness for C2 at concrete environments and primitives. -/
theorem C2_outcome_invariants_witness :
    InvD (RealImageModel.analyze_image P0 ienv0) ∧
    InvD (RealVideoModel.analyze_video P0 venv0) ∧
    InvD (RealAudioModel.analyze_audio P0 aenv0) :=
  C2_outcome_invariants P0 (fun _ => le_refl 0) ienv0 venv0 aenv0

theorem wf_errorResult (t e : String) : WellFormed (errorResult t e) := by
  refine ⟨le_refl 0, by norm_num [errorResult], ?_⟩
  intro p q hp _
  simp [errorResult] at hp

theorem wf_successResult (t : String) {r : ScoreDict} (h : InvD r) :
    WellFormed (successResult t r) := by
  refine ⟨h.2.2.2.2.2.1, h.2.2.2.2.2.2.1, ?_⟩
  intro p q hp hq
  simp only [successResult, Option.some.injEq] at hp hq
  rw [← hp, ← hq]
  exact ⟨h.1, h.2.1, h.2.2.1, h.2.2.2.1, h.2.2.2.2.1⟩

theorem mm_image_spec (P : Params) (hs : ∀ x, 0 ≤ P.sqrt x) (path : String)
    (m : MMEnv) (env : ImageEnv) :
    WellFormed (ModelManager.analyze_image P path m env) ∧
    (m.fileExists = false →
      ModelManager.analyze_image P path m env =
        errorResult "image" ("Image file not found: " ++ path)) ∧
    (∀ e, m.fileExists = true → m.plumbing = Except.error e →
      ModelManager.analyze_image P path m env = errorResult "image" e) := by
  rcases hfe : m.fileExists
  · refine ⟨?_, fun _ => ?_, fun e hT _ => absurd hT (by simp)⟩
    · unfold ModelManager.analyze_image
      rw [if_pos hfe]
      exact wf_errorResult _ _
    · unfold ModelManager.analyze_image
      rw [if_pos hfe]
  · have hne : ¬ m.fileExists = false := by simp [hfe]
    refine ⟨?_, fun hF => absurd hF (by simp), fun e _ hp' => ?_⟩
    · rcases hp : m.plumbing with e | u
      · unfold ModelManager.analyze_image
        rw [if_neg hne, hp]
        exact wf_errorResult _ _
      · unfold ModelManager.analyze_image
        rw [if_neg hne, hp]
        exact wf_successResult _ (RealImageModel.analyze_image_inv P hs env)
    · unfold ModelManager.analyze_image
      rw [if_neg hne, hp']

theorem mm_video_spec (P : Params) (hs : ∀ x, 0 ≤ P.sqrt x) (path : String)
    (m : MMEnv) (env : VideoEnv) :
    WellFormed (ModelManager.analyze_video P path m env) ∧
    (m.fileExists = false →
      ModelManager.analyze_video P path m env =
        errorResult "video" ("Video file not found: " ++ path)) ∧
    (∀ e, m.fileExists = true → m.plumbing = Except.error e →
      ModelManager.analyze_video P path m env = errorResult "video" e) := by
  rcases hfe : m.fileExists
  · refine ⟨?_, fun _ => ?_, fun e hT _ => absurd hT (by simp)⟩
    · unfold ModelManager.analyze_video
      rw [if_pos hfe]
      exact wf_errorResult _ _
    · unfold ModelManager.analyze_video
      rw [if_pos hfe]
  · have hne : ¬ m.fileExists = false := by simp [hfe]
    refine ⟨?_, fun hF => absurd hF (by simp), fun e _ hp' => ?_⟩
    · rcases hp : m.plumbing with e | u
      · unfold ModelManager.analyze_video
        rw [if_neg hne, hp]
        exact wf_errorResult _ _
      · unfold ModelManager.analyze_video
        rw [if_neg hne, hp]
        exact wf_successResult _ (RealVideoModel.analyze_video_inv P hs env)
    · unfold ModelManager.analyze_video
      rw [if_neg hne, hp']

theorem mm_audio_spec (P : Params) (hs : ∀ x, 0 ≤ P.sqrt x) (path : String)
    (m : MMEnv) (env : AudioEnv) :
    WellFormed (ModelManager.analyze_audio P path m env) ∧
    (m.fileExists = false →
      ModelManager.analyze_audio P path m env =
        errorResult "audio" ("Audio file not found: " ++ path)) ∧
    (∀ e, m.fileExists = true → m.plumbing = Except.error e →
      ModelManager.analyze_audio P path m env = errorResult "audio" e) := by
  rcases hfe : m.fileExists
  · refine ⟨?_, fun _ => ?_, fun e hT _ => absurd hT (by simp)⟩
    · unfold ModelManager.analyze_audio
      rw [if_pos hfe]
      exact wf_errorResult _ _
    · unfold ModelManager.analyze_audio
      rw [if_pos hfe]
  · have hne : ¬ m.fileExists = false := by simp [hfe]
    refine ⟨?_, fun hF => absurd hF (by simp), fun e _ hp' => ?_⟩
    · rcases hp : m.plumbing with e | u
      · unfold ModelManager.analyze_audio
        rw [if_neg hne, hp]
        exact wf_errorResult _ _
      · unfold ModelManager.analyze_audio
        rw [if_neg hne, hp]
        exact wf_successResult _ (RealAudioModel.analyze_audio_inv P hs env)
    · unfold ModelManager.analyze_audio
      rw [if_neg hne, hp']

/-- C1: each public boundary operation is a total function into well-formed
`AnalysisResult` records (exceptions are caught, never propagated); when a
failure is caught at that boundary the outcome carries the error tag in
`model_used`, confidence 0, and the triggering message in the metadata. -/
theorem C1_boundary_total (P : Params) (hs : ∀ x, 0 ≤ P.sqrt x) (path : String)
    (mi mv ma : MMEnv) (ienv : ImageEnv) (venv : VideoEnv) (aenv : AudioEnv) :
    (WellFormed (ModelManager.analyze_image P path mi ienv) ∧
     WellFormed (ModelManager.analyze_video P path mv venv) ∧
     WellFormed (ModelManager.analyze_audio P path ma aenv)) ∧
    (mi.fileExists = false →
      ModelManager.analyze_image P path mi ienv =
        errorResult "image" ("Image file not found: " ++ path)) ∧
    (∀ e, mi.fileExists = true → mi.plumbing = Except.error e →
      ModelManager.analyze_image P path mi ienv = errorResult "image" e) ∧
    (mv.fileExists = false →
      ModelManager.analyze_video P path mv venv =
        errorResult "video" ("Video file not found: " ++ path)) ∧
    (∀ e, mv.fileExists = true → mv.plumbing = Except.error e →
      ModelManager.analyze_video P path mv venv = errorResult "video" e) ∧
    (ma.fileExists = false →
      ModelManager.analyze_audio P path ma aenv =
        errorResult "audio" ("Audio file not found: " ++ path)) ∧
    (∀ e, ma.fileExists = true → ma.plumbing = Except.error e →
      ModelManager.analyze_audio P path ma aenv = errorResult "audio" e) ∧
    (∀ t e, (errorResult t e).model_used = "Error" ∧
      (errorResult t e).confidence = 0 ∧ (errorResult t e).md_error = some e) := by
  obtain ⟨iw, ie1, ie2⟩ := mm_image_spec P hs path mi ienv
  obtain ⟨vw, ve1, ve2⟩ := mm_video_spec P hs path mv venv
  obtain ⟨aw, ae1, ae2⟩ := mm_audio_spec P hs path ma aenv
  exact ⟨⟨iw, vw, aw⟩, ie1, ie2, ve1, ve2, ae1, ae2, fun t e => ⟨rfl, rfl, rfl⟩⟩

/-- A concrete boundary environment whose file-existence check fails. -/
def mmE : MMEnv := { fileExists := false, plumbing := Except.ok () }

/-- A concrete boundary environment whose metrics plumbing raises. -/
def mmP : MMEnv := { fileExists := true, plumbing := Except.error "metrics down" }

/-- Witness for C1: a missing file yields the tagged error outcome on the
image path, a plumbing failure yields it on the audio path, and the video
result is well-formed. -/
theorem C1_boundary_total_witness :
    ModelManager.analyze_image P0 "a.png" mmE ienv0 =
      errorResult "image" ("Image file not found: " ++ "a.png") ∧
    ModelManager.analyze_audio P0 "a.wav" mmP aenv0 =
      errorResult "audio" "metrics down" ∧
    WellFormed (ModelManager.analyze_video P0 "a.mp4" mmP venv0) := by
  have h := C1_boundary_total P0 (fun _ => le_refl 0) "a.png" mmE mmP mmP
    ienv0 venv0 aenv0
  have h2 := C1_boundary_total P0 (fun _ => le_refl 0) "a.wav" mmE mmP mmP
    ienv0 venv0 aenv0
  exact ⟨h.2.1 rfl, h2.2.2.2.2.2.2.1 "metrics down" rfl rfl, h.1.2.1⟩

theorem setIter_dedup : SetIter (fun xs => xs.dedup) :=
  fun xs => ⟨List.nodup_dedup xs, fun _ => List.mem_dedup⟩

theorem setIter_dedup_reverse : SetIter (fun xs => xs.dedup.reverse) :=
  fun xs => ⟨List.nodup_reverse.2 (List.nodup_dedup xs),
    fun _ => List.mem_reverse.trans List.mem_dedup⟩

theorem setIter_perm_dedup {o : List String → List String} (ho : SetIter o)
    (xs : List String) : (o xs).Perm xs.dedup :=
  (List.perm_ext_iff_of_nodup (ho xs).1 (List.nodup_dedup xs)).2
    (fun a => ((ho xs).2 a).trans List.mem_dedup.symm)

theorem aggregate_cues_spec (o : List String → List String) (ho : SetIter o)
    (fc : List (List String)) :
    (aggregate_cues o fc).Nodup ∧ (aggregate_cues o fc).length ≤ 5 ∧
    (∀ c ∈ aggregate_cues o fc, c ∈ fc.flatten) ∧
    (fc.flatten.dedup.length ≤ 5 →
      ∀ c ∈ fc.flatten, (aggregate_cues o fc).count c = 1) := by
  refine ⟨(List.take_sublist _ _).nodup (ho _).1, ?_, ?_, ?_⟩
  · rw [aggregate_cues, List.length_take]
    exact min_le_left _ _
  · intro c hc
    exact ((ho _).2 c).1 (List.mem_of_mem_take hc)
  · intro hlen c hcmem
    have hperm := setIter_perm_dedup ho fc.flatten
    have hl : (o fc.flatten).length ≤ 5 := by
      rw [hperm.length_eq]
      exact hlen
    rw [aggregate_cues, List.take_of_length_le hl]
    exact List.count_eq_one_of_mem (ho _).1 (((ho _).2 c).2 hcmem)

/-- C5 (amended): the cue aggregation is a function of the per-frame cue
lists and the interpreter's set-iteration order alone; for any two valid
set-iteration orders (two interpreter states) and at most 5 distinct cues,
the two aggregated lists are permutations of each other, so two runs agree
up to the (unguaranteed) ordering. -/
theorem C5_aggregation_stable (o1 o2 : List String → List String)
    (h1 : SetIter o1) (h2 : SetIter o2) (fc : List (List String))
    (hle : fc.flatten.dedup.length ≤ 5) :
    (aggregate_cues o1 fc).Perm (aggregate_cues o2 fc) := by
  have p1 := setIter_perm_dedup h1 fc.flatten
  have p2 := setIter_perm_dedup h2 fc.flatten
  have l1 : (o1 fc.flatten).length ≤ 5 := by
    rw [p1.length_eq]
    exact hle
  have l2 : (o2 fc.flatten).length ≤ 5 := by
    rw [p2.length_eq]
    exact hle
  rw [aggregate_cues, aggregate_cues, List.take_of_length_le l1,
    List.take_of_length_le l2]
  exact p1.trans p2.symm

/-- Counterexample for C5 as stated: two valid set-iteration orders (two
interpreter states) produce different aggregated cue lists from identical
per-frame cues, so the aggregation is not list-identical across runs. -/
theorem C5_counterexample :
    SetIter (fun xs => xs.dedup) ∧ SetIter (fun xs => xs.dedup.reverse) ∧
    aggregate_cues (fun xs => xs.dedup) [["a", "b"]] ≠
      aggregate_cues (fun xs => xs.dedup.reverse) [["a", "b"]] :=
  ⟨setIter_dedup, setIter_dedup_reverse, by decide⟩

/-- Witness for C5 (amended) at two concrete orders and a two-cue input. -/
theorem C5_aggregation_stable_witness :
    (aggregate_cues (fun xs => xs.dedup) [["a", "b"]]).Perm
      (aggregate_cues (fun xs => xs.dedup.reverse) [["a", "b"]]) :=
  C5_aggregation_stable _ _ setIter_dedup setIter_dedup_reverse _ (by decide)

/-- C6 (amended): for a video with at least one analyzed frame, the
aggregated cue list is duplicate-free, has at most 5 entries, draws only
from the per-frame cues, and contains each distinct per-frame cue exactly
once provided there are at most 5 distinct cues (beyond 5, the `[:5]`
truncation necessarily drops some). -/
theorem C6_cue_dedup (P : Params) (venv : VideoEnv) (hso : SetIter P.setOrder)
    (hne : (extract_frames venv).isEmpty = false) :
    (RealVideoModel.analyze_video P venv).visual_cues.Nodup ∧
    (RealVideoModel.analyze_video P venv).visual_cues.length ≤ 5 ∧
    (∀ c ∈ (RealVideoModel.analyze_video P venv).visual_cues,
      c ∈ (((extract_frames venv).map (frame_analyze P venv.classifier)).map
        (fun r => r.visual_cues)).flatten) ∧
    ((((extract_frames venv).map (frame_analyze P venv.classifier)).map
        (fun r => r.visual_cues)).flatten.dedup.length ≤ 5 →
      ∀ c ∈ (((extract_frames venv).map (frame_analyze P venv.classifier)).map
        (fun r => r.visual_cues)).flatten,
        (RealVideoModel.analyze_video P venv).visual_cues.count c = 1) := by
  have hcue : (RealVideoModel.analyze_video P venv).visual_cues =
      aggregate_cues P.setOrder
        (((extract_frames venv).map (frame_analyze P venv.classifier)).map
          (fun r => r.visual_cues)) := by
    unfold RealVideoModel.analyze_video
    simp only [hne, if_false, Bool.false_eq_true]
  rw [hcue]
  exact aggregate_cues_spec P.setOrder hso _

/-- Witness for C6 (amended) at a concrete one-frame video. -/
theorem C6_cue_dedup_witness :
    (RealVideoModel.analyze_video P0 venv0).visual_cues.Nodup ∧
    (RealVideoModel.analyze_video P0 venv0).visual_cues.length ≤ 5 :=
  ⟨(C6_cue_dedup P0 venv0 setIter_dedup (by decide)).1,
   (C6_cue_dedup P0 venv0 setIter_dedup (by decide)).2.1⟩

/-- A frame whose face detection reports `n` faces (on the classifier path). -/
def faceFrame (n : ℕ) : FrameData :=
  { hfProbs := Except.ok [], faces := Except.ok (List.replicate n face0),
    decode := none }

/-- A frame whose face detection raises. -/
def failFrame : FrameData :=
  { hfProbs := Except.ok [], faces := Except.error (), decode := none }

/-- A concrete video whose frames produce more than 5 distinct cues. -/
def venv6 : VideoEnv :=
  { opened := true, fps := 1,
    src := [faceFrame 2, failFrame, faceFrame 0, faceFrame 3],
    classifier := true }

theorem extract_visual_cues_ok (fl : List FaceImg) :
    extract_visual_cues (Except.ok fl) =
      if 0 < fl.length then
        ("Detected " ++ toString fl.length ++ " face(s)") ::
          fl.enum.map (fun p =>
            "Face " ++ toString (p.1 + 1) ++ ": No obvious artifacts")
      else ["No faces detected"] := by
  rw [extract_visual_cues]
  rcases Nat.eq_zero_or_pos fl.length with h0 | hp
  · rw [if_neg (by omega), if_neg (by omega)]
  · rw [if_pos hp, if_pos hp]
    congr 1
    refine List.map_congr_left ?_
    intro p _
    rw [check_face_artifacts_false]
    simp

/-- Counterexample for C6 as stated: a video with at least one analyzed
frame but more than 5 distinct per-frame cues, where some distinct cue does
not appear in the (5-truncated) aggregated list. -/
theorem C6_counterexample :
    (extract_frames venv6).isEmpty = false ∧
    ¬ ∀ c ∈ (((extract_frames venv6).map (frame_analyze P0 venv6.classifier)).map
        (fun r => r.visual_cues)).flatten,
      (RealVideoModel.analyze_video P0 venv6).visual_cues.count c = 1 := by
  have hlist : ((extract_frames venv6).map (frame_analyze P0 venv6.classifier)).map
      (fun r => r.visual_cues) =
      [extract_visual_cues (Except.ok (List.replicate 2 face0)),
       ["Face analysis failed"],
       extract_visual_cues (Except.ok (List.replicate 0 face0)),
       extract_visual_cues (Except.ok (List.replicate 3 face0))] := rfl
  have c2 : extract_visual_cues (Except.ok (List.replicate 2 face0)) =
      ["Detected 2 face(s)", "Face 1: No obvious artifacts",
       "Face 2: No obvious artifacts"] := by
    rw [extract_visual_cues_ok]
    decide
  have c0 : extract_visual_cues (Except.ok (List.replicate 0 face0)) =
      ["No faces detected"] := by
    rw [extract_visual_cues_ok]
    decide
  have c3 : extract_visual_cues (Except.ok (List.replicate 3 face0)) =
      ["Detected 3 face(s)", "Face 1: No obvious artifacts",
       "Face 2: No obvious artifacts", "Face 3: No obvious artifacts"] := by
    rw [extract_visual_cues_ok]
    decide
  have hvis : (RealVideoModel.analyze_video P0 venv6).visual_cues =
      aggregate_cues P0.setOrder
        (((extract_frames venv6).map (frame_analyze P0 venv6.classifier)).map
          (fun r => r.visual_cues)) := by
    unfold RealVideoModel.analyze_video
    simp only [show (extract_frames venv6).isEmpty = false from rfl,
      Bool.false_eq_true, if_false]
  refine ⟨rfl, ?_⟩
  rw [hvis, hlist, c2, c0, c3]
  decide

theorem gridList_all_eq (h w : ℕ) (cc : Fin 256) :
    ∀ x ∈ gridList h w (fun _ _ => cc), x = pix cc := by
  intro x hx
  rw [gridList, List.mem_flatten] at hx
  obtain ⟨row, hrow, hxrow⟩ := hx
  rw [List.mem_map] at hrow
  obtain ⟨i, _, rfl⟩ := hrow
  rw [List.mem_map] at hxrow
  obtain ⟨j, _, rfl⟩ := hxrow
  rfl

theorem pix_le_255 (cc : Fin 256) : pix cc ≤ 255 := by
  unfold pix
  exact_mod_cast Nat.lt_succ_iff.mp cc.isLt

theorem pix_nonneg (cc : Fin 256) : (0 : ℚ) ≤ pix cc := by
  unfold pix
  positivity

theorem boxBlur_const (h w : ℕ) (cc : Fin 256) (i j : ℕ) :
    boxBlur h w (fun _ _ => cc) i j = pix cc := by
  have hr : ((3 : ℚ) * ((3 : ℚ) * pix cc)) / 9 = pix cc := by ring
  simp only [boxBlur, Finset.sum_const, Finset.card_range, nsmul_eq_mul,
    Nat.cast_ofNat, hr]
  have hround : round (pix cc) = (cc.val : ℤ) := by
    unfold pix
    exact round_natCast cc.val
  rw [hround]
  rw [show (((cc.val : ℤ)) : ℚ) = pix cc from by push_cast [pix]; ring]
  rw [min_eq_right (pix_le_255 cc), max_eq_right (pix_nonneg cc)]

theorem noiseList_all_zero (h w : ℕ) (cc : Fin 256) :
    ∀ x ∈ noiseList h w (fun _ _ => cc), x = 0 := by
  intro x hx
  rw [noiseList, List.mem_flatten] at hx
  obtain ⟨row, hrow, hxrow⟩ := hx
  rw [List.mem_map] at hrow
  obtain ⟨i, _, rfl⟩ := hrow
  rw [List.mem_map] at hxrow
  obtain ⟨j, _, rfl⟩ := hxrow
  simp [boxBlur_const]

theorem analyze_noise_patterns_const (h w : ℕ) (cc : Fin 256) :
    analyze_noise_patterns h w (fun _ _ => cc) = 0 := by
  rw [analyze_noise_patterns, varQ_of_const (noiseList_all_zero h w cc), zero_div]
  simp

theorem dctCoef_const (dctM : ℕ → ℕ → ℕ → ℚ) (hD : DctRows0 dctM) (h w : ℕ)
    (cc : Fin 256) (u v : ℕ) (hu : 1 ≤ u) :
    dctCoef dctM h w (fun _ _ => cc) u v = 0 := by
  simp only [dctCoef]
  have hrow : ∀ i ∈ Finset.range h,
      (∑ j ∈ Finset.range w, dctM h u i * pix cc * dctM w v j)
      = dctM h u i * (pix cc * ∑ j ∈ Finset.range w, dctM w v j) := by
    intro i _
    rw [← Finset.mul_sum]
    ring
  rw [Finset.sum_congr rfl hrow, ← Finset.sum_mul, hD h u hu, zero_mul]

theorem detect_compression_artifacts_const (dctM : ℕ → ℕ → ℕ → ℚ)
    (hD : DctRows0 dctM) (h w : ℕ) (cc : Fin 256) :
    detect_compression_artifacts dctM h w (fun _ _ => cc) = 0 := by
  have hhf : dctHighFreq dctM h w (fun _ _ => cc) = 0 := by
    rw [dctHighFreq]
    refine Finset.sum_eq_zero (fun u hu => Finset.sum_eq_zero (fun v _ => ?_))
    rw [dctCoef_const dctM hD h w cc u v
      (le_trans (by norm_num) (Finset.mem_Ico.1 hu).1), abs_zero]
  rw [detect_compression_artifacts, hhf, zero_div]
  simp

theorem analyze_color_consistency_const (P : Params) (hs0 : P.sqrt 0 = 0)
    (h w : ℕ) (c s v : Fin 256) :
    analyze_color_consistency P
      ⟨h, w, fun _ _ => c, fun _ _ => s, fun _ _ => v⟩ = 1 := by
  rw [analyze_color_consistency]
  dsimp only
  have h1 : stdQ P (gridList h w (fun _ _ => s)) = 0 := by
    rw [stdQ, varQ_of_const (gridList_all_eq h w s), hs0]
  have h2 : stdQ P (gridList h w (fun _ _ => v)) = 0 := by
    rw [stdQ, varQ_of_const (gridList_all_eq h w v), hs0]
  rw [h1, h2]
  norm_num

theorem fallback_analysis_const (P : Params) (hD : DctRows0 P.dctM)
    (hs0 : P.sqrt 0 = 0) (fd : FrameData) (h w : ℕ) (c s v : Fin 256)
    (hd : fd.decode = some ⟨h, w, fun _ _ => c, fun _ _ => s, fun _ _ => v⟩) :
    fallback_analysis P fd =
      { is_fake := false, confidence := 1 / 5, fake_probability := 0,
        real_probability := 1,
        visual_cues := ["No obvious artifacts detected"],
        model_used := "Traditional CV Analysis" } := by
  have ha := detect_compression_artifacts_const P.dctM hD h w c
  have hn := analyze_noise_patterns_const h w c
  have hcol := analyze_color_consistency_const P hs0 h w c s v
  simp only [fallback_analysis, hd]
  dsimp only
  rw [ha, hn, hcol]
  norm_num

/-- C9: an all-uniform image takes the fallback path to artifact score 0
and noise score 0, cue list exactly ["No obvious artifacts detected"], a
real verdict, and confidence exactly 0.2 (inside [0.2, 0.4]); this covers
the solid-gray 100×100 no-classifier scenario. -/
theorem C9_uniform_image (P : Params) (hD : DctRows0 P.dctM) (hs0 : P.sqrt 0 = 0)
    (env : ImageEnv) (h w : ℕ) (c s v : Fin 256)
    (hcl : env.classifier = false)
    (hd : env.frame.decode = some ⟨h, w, fun _ _ => c, fun _ _ => s, fun _ _ => v⟩) :
    detect_compression_artifacts P.dctM h w (fun _ _ => c) = 0 ∧
    analyze_noise_patterns h w (fun _ _ => c) = 0 ∧
    (RealImageModel.analyze_image P env).visual_cues =
      ["No obvious artifacts detected"] ∧
    (RealImageModel.analyze_image P env).is_fake = false ∧
    (RealImageModel.analyze_image P env).confidence = 1 / 5 ∧
    1 / 5 ≤ (RealImageModel.analyze_image P env).confidence ∧
    (RealImageModel.analyze_image P env).confidence ≤ 2 / 5 := by
  have himg : RealImageModel.analyze_image P env = fallback_analysis P env.frame := by
    unfold RealImageModel.analyze_image
    rw [hcl]
    simp
  have hfb := fallback_analysis_const P hD hs0 env.frame h w c s v hd
  rw [himg, hfb]
  exact ⟨detect_compression_artifacts_const P.dctM hD h w c,
    analyze_noise_patterns_const h w c, rfl, rfl, rfl, by norm_num, by norm_num⟩

theorem P0_dct_rows0 : DctRows0 P0.dctM := by
  intro n u _
  simp [P0]

/-- A concrete frame on the classifier-free path over a uniform image. -/
def frameC4 : FrameData :=
  { hfProbs := Except.error (), faces := Except.ok [], decode := some imgData0 }

/-- A concrete image environment on the classifier-free fallback path. -/
def cenv4 : ImageEnv := { classifier := false, frame := frameC4 }

/-- Witness for C9 at the concrete primitives `P0` and a 1×1 uniform image. -/
theorem C9_uniform_image_witness :
    (RealImageModel.analyze_image P0 cenv4).confidence = 1 / 5 ∧
    (RealImageModel.analyze_image P0 cenv4).is_fake = false :=
  ⟨(C9_uniform_image P0 P0_dct_rows0 rfl cenv4 1 1 100 100 100 rfl rfl).2.2.2.2.1,
   (C9_uniform_image P0 P0_dct_rows0 rfl cenv4 1 1 100 100 100 rfl rfl).2.2.2.1⟩

theorem fallback_cues_subset (P : Params) (fd : FrameData) :
    ∀ c ∈ (fallback_analysis P fd).visual_cues,
      c ∈ ["Compression artifacts detected", "Inconsistent noise patterns",
           "Color inconsistencies detected", "No obvious artifacts detected",
           "Analysis failed"] := by
  intro c hc
  rcases hd : fd.decode with _ | img
  · simp only [fallback_analysis, hd] at hc
    simp only [List.mem_singleton] at hc
    simp [hc]
  · simp only [fallback_analysis, hd] at hc
    split_ifs at hc <;> simp_all <;> tauto

/-- C4 (amended): face cues are produced only on the classifier-backed
primary path — there, with classifier inference and face analysis
succeeding, the cue list is the face-count cue followed by one per-face cue
(the "Potential artifacts" variant exactly when the edge-density check
fires), or exactly ["No faces detected"] for zero faces; the classifier-free
fallback path emits only artifact/noise/color cues, never face cues. -/
theorem C4_face_cues (P : Params) (env env' : ImageEnv) (probs : List ℚ)
    (faces : List FaceImg) (hc : env.classifier = true)
    (hp : env.frame.hfProbs = Except.ok probs)
    (hf : env.frame.faces = Except.ok faces)
    (hc' : env'.classifier = false) :
    ((RealImageModel.analyze_image P env).visual_cues =
      if 0 < faces.length then
        ("Detected " ++ toString faces.length ++ " face(s)") ::
          faces.enum.map (fun p =>
            if check_face_artifacts p.2 then
              "Face " ++ toString (p.1 + 1) ++ ": Potential artifacts detected"
            else "Face " ++ toString (p.1 + 1) ++ ": No obvious artifacts")
      else ["No faces detected"]) ∧
    (∀ c ∈ (RealImageModel.analyze_image P env').visual_cues,
      c ∈ ["Compression artifacts detected", "Inconsistent noise patterns",
           "Color inconsistencies detected", "No obvious artifacts detected",
           "Analysis failed"]) := by
  constructor
  · have himg : RealImageModel.analyze_image P env =
        huggingface_analysis P env.frame := by
      unfold RealImageModel.analyze_image
      rw [hc]
      simp
    rw [himg]
    simp only [huggingface_analysis, hp]
    rw [hf]
    simp only [extract_visual_cues]
  · intro c hcm
    have himg' : RealImageModel.analyze_image P env' =
        fallback_analysis P env'.frame := by
      unfold RealImageModel.analyze_image
      rw [hc']
      simp
    rw [himg'] at hcm
    exact fallback_cues_subset P env'.frame c hcm

/-- Counterexample for C4 as stated: on the fallback path with a face
detector that would report zero faces, the cue list carries no face cue at
all — in particular not "No faces detected". -/
theorem C4_counterexample :
    cenv4.frame.faces = Except.ok ([] : List FaceImg) ∧
    "No faces detected" ∉ (RealImageModel.analyze_image P0 cenv4).visual_cues := by
  refine ⟨rfl, ?_⟩
  have himg : RealImageModel.analyze_image P0 cenv4 =
      fallback_analysis P0 cenv4.frame := rfl
  have hfb := fallback_analysis_const P0 P0_dct_rows0 rfl cenv4.frame
    1 1 100 100 100 rfl
  rw [himg, hfb]
  decide

/-- Witness for C4 (amended) at a concrete classifier-path environment with
zero detected faces. -/
theorem C4_face_cues_witness :
    (RealImageModel.analyze_image P0 ienv0).visual_cues = ["No faces detected"] := by
  have h := (C4_face_cues P0 ienv0 cenv4 [1 / 2] [] rfl rfl rfl rfl).1
  simpa using h

end DFD
